import Mathlib

/-!
Verification of the trayscale tray rendering engine.

This file is a shallow embedding of the darwin tray package (the `tray`
package implementing the `Tray` interface via `New`): the diff cache
(`dirty` / `dirtyBytes`), the render procedure (`update` /
`updateStatusIcon`), the presentation helpers (`selfTitle`,
`connToggleText`, `exitToggleText`, `statusIcon`), and the lifecycle
operations (`Start`, `Update`, `Close`).  Native mutations (SetTitle,
Enable/Disable, Check/Uncheck, SetTemplateIcon) are recorded as an emitted
event list instead of being performed.  The click-listener wiring of both
the current darwin package and the legacy `tray_macos` package is modelled
as an item-to-stream binding table.
-/

/-- Status fields consumed by the tray, read from `*tsutil.IPNStatus`:
`Online()`, `ExitNodeActive()`, `SelfAddr()` (validity plus textual form),
and `NetMap.SelfNode.DisplayName(true)`. -/
structure IPNStatus where
  online : Bool
  exitNodeActive : Bool
  selfAddrValid : Bool
  selfAddr : String
  displayName : String
deriving DecidableEq, Repr

/-- The `tsutil.Status` interface value passed to `Update`: either the
expected concrete kind `*tsutil.IPNStatus`, or any other implementation of
the interface (which the type assertion in `Update` rejects). -/
inductive Status where
  | ipn (status : IPNStatus)
  | other
deriving DecidableEq, Repr

/-- Diff-cache keys, mirroring the package-level `unique.Make` handles
`selfHandle`, `connToggleHandle`, `exitToggleHandle`, `statusIconHandle`. -/
inductive Key where
  | self
  | connToggle
  | exitToggle
  | statusIcon
deriving DecidableEq, Repr

def selfHandle : Key := Key.self

def connToggleHandle : Key := Key.connToggle

def exitToggleHandle : Key := Key.exitToggle

def statusIconHandle : Key := Key.statusIcon

/-- Values stored in the scalar diff cache `prev`: the `...any` tuples the
renderer passes to `dirty` hold only strings and booleans. -/
inductive Val where
  | str (s : String)
  | bool (b : Bool)
deriving DecidableEq, Repr

/-- Byte buffers (Go `[]byte`) as lists of bytes. -/
abbrev Bytes : Type := List Nat

/-- The scalar diff cache `prev : map[unique.Handle[string]][]any`.
A missing key is `none`; Go map lookup yields the zero value `nil`,
which `slices.Equal` treats as the empty slice. -/
def DiffMap : Type := Key → Option (List Val)

/-- The binary diff cache `prevBytes : map[unique.Handle[string]][][]byte`. -/
def BytesMap : Type := Key → Option (List Bytes)

/-- Store a tuple under a key, as the map assignment in `dirty` does. -/
def setKey (m : DiffMap) (key : Key) (vals : List Val) : DiffMap :=
  fun k => if k = key then some vals else m k

/-- Store a byte-buffer tuple under a key, as the map assignment in
`dirtyBytes` does. -/
def setBytesKey (m : BytesMap) (key : Key) (vals : List Bytes) : BytesMap :=
  fun k => if k = key then some vals else m k

/-- The darwin package `dirty` method: look up the previously rendered
tuple (`prev := t.prev[key]`, the zero value for a missing key), return
`false` if `slices.Equal(vals, prev)`, otherwise record `vals` and return
`true`.  Returns the dirtiness verdict together with the resulting cache. -/
def dirty (m : DiffMap) (key : Key) (vals : List Val) : Bool × DiffMap :=
  let prev := (m key).getD []
  if vals = prev then
    (false, m)
  else
    (true, setKey m key vals)

/-- The darwin package `dirtyBytes` method: if the stored tuple has a
different number of buffers the key is dirty; otherwise the key is dirty
iff some positional buffer fails `bytes.Equal`; on a dirty verdict the
stored tuple is replaced by `vals`. -/
def dirtyBytes (m : BytesMap) (key : Key) (vals : List Bytes) : Bool × BytesMap :=
  let prevBytesSlices := (m key).getD []
  if prevBytesSlices.length ≠ vals.length then
    (true, setBytesKey m key vals)
  else if (prevBytesSlices.zip vals).any (fun pv => pv.1 ≠ pv.2) then
    (true, setBytesKey m key vals)
  else
    (false, m)

/-- The three embedded template icon payloads, opaque build-time
resources (`statusIconActiveData`, `statusIconInactiveData`,
`statusIconExitNodeData`). -/
structure Icons where
  statusIconActiveData : Bytes
  statusIconInactiveData : Bytes
  statusIconExitNodeData : Bytes

/-- Menu items created in `onReady` during `Start`. -/
inductive Item where
  | showItem
  | connToggle
  | exitToggle
  | selfNode
  | quitItem
deriving DecidableEq, Repr

/-- A native mutation issued by the renderer: `SetTitle`, `Enable` /
`Disable` (recorded as the resulting enabled state), `Check` / `Uncheck`
(recorded as the resulting checked state), or `systray.SetTemplateIcon`. -/
inductive Mutation where
  | setTitle (item : Item) (title : String)
  | setEnabled (item : Item) (enabled : Bool)
  | setChecked (item : Item) (checked : Bool)
  | setTemplateIcon (payload : Bytes)
deriving DecidableEq, Repr

/-- The menu item a mutation targets; the template icon is the tray icon
itself, not a menu item. -/
def mutationItem : Mutation → Option Item
  | Mutation.setTitle item _ => some item
  | Mutation.setEnabled item _ => some item
  | Mutation.setChecked item _ => some item
  | Mutation.setTemplateIcon _ => none

/-- The mutations of a list that target a given menu item. -/
def itemMutations (muts : List Mutation) (item : Item) : List Mutation :=
  muts.filter (fun mu => mutationItem mu = some item)

/-- Whether a mutation is an icon push. -/
def isIconMutation : Mutation → Bool
  | Mutation.setTemplateIcon _ => true
  | _ => false

/-- The mutable per-tray state of `trayImpl` relevant to rendering: the
`trayReady` flag and the two diff caches `prev` and `prevBytes`.  The
native item handles and the `appStart` / `appClose` functions are part of
the external systray collaborator and are not part of the rendered
state. -/
structure TrayState where
  trayReady : Bool
  prev : DiffMap
  prevBytes : BytesMap

/-- The `statusIcon` helper: inactive when offline, otherwise the
exit-node icon when an exit node is active, otherwise the active icon. -/
def statusIcon (icons : Icons) (status : IPNStatus) : Bytes :=
  if !status.online then
    icons.statusIconInactiveData
  else if status.exitNodeActive then
    icons.statusIconExitNodeData
  else
    icons.statusIconActiveData

/-- The `selfTitle` helper: `("Not connected", false)` when the self
address is invalid, otherwise the formatted `"<displayName> (<address>)"`
paired with `true`. -/
def selfTitle (status : IPNStatus) : String × Bool :=
  if !status.selfAddrValid then
    ("Not connected", false)
  else
    (status.displayName ++ " (" ++ status.selfAddr ++ ")", true)

/-- The `connToggleText` helper. -/
def connToggleText (online : Bool) : String :=
  if online then
    "Disconnect"
  else
    "Connect"

/-- The `exitToggleText` helper. -/
def exitToggleText (status : IPNStatus) : String :=
  if status.exitNodeActive then
    "Disable exit node"
  else
    "Enable exit node"

/-- The internal `update` method (together with the inlined
`updateStatusIcon` it calls first): a no-op unless `trayReady`; otherwise
derive the presentation values, then run the icon, self-item,
connect-toggle and exit-toggle steps, each consulting the diff cache and
issuing its native calls only when its tuple is dirty.  Returns the new
state and the list of native mutations issued, in issue order. -/
def update (icons : Icons) (t : TrayState) (status : IPNStatus) :
    TrayState × List Mutation :=
  if !t.trayReady then
    (t, [])
  else
    let st := selfTitle status
    let connected := st.2
    let connToggleLabel := connToggleText status.online
    let exitToggleLabel := exitToggleText status
    let newIcon := statusIcon icons status
    let iconRes := dirtyBytes t.prevBytes statusIconHandle [newIcon]
    let iconMuts :=
      if iconRes.1 then [Mutation.setTemplateIcon newIcon] else []
    let selfRes := dirty t.prev selfHandle [Val.str st.1, Val.bool connected]
    let selfMuts :=
      if selfRes.1 then
        [Mutation.setTitle Item.selfNode ("This machine: " ++ st.1),
         Mutation.setEnabled Item.selfNode connected]
      else []
    let connRes := dirty selfRes.2 connToggleHandle
      [Val.str connToggleLabel, Val.bool status.online]
    let connMuts :=
      if connRes.1 then
        [Mutation.setTitle Item.connToggle connToggleLabel,
         Mutation.setChecked Item.connToggle status.online]
      else []
    let exitRes := dirty connRes.2 exitToggleHandle
      [Val.str exitToggleLabel, Val.bool connected, Val.bool status.exitNodeActive]
    let exitMuts :=
      if exitRes.1 then
        [Mutation.setTitle Item.exitToggle exitToggleLabel,
         Mutation.setEnabled Item.exitToggle connected,
         Mutation.setChecked Item.exitToggle status.exitNodeActive]
      else []
    ({ trayReady := t.trayReady, prev := exitRes.2, prevBytes := iconRes.2 },
     iconMuts ++ selfMuts ++ connMuts ++ exitMuts)

/-- The public `Update` method: the type assertion
`s.(*tsutil.IPNStatus)` silently drops any other status kind; on success
the internal `update` runs under the lock.  (The method has no return
value, so no error can be surfaced.) -/
def Update (icons : Icons) (t : TrayState) (s : Status) :
    TrayState × List Mutation :=
  match s with
  | Status.ipn status => update icons t status
  | Status.other => (t, [])

/-- A sequence of `Update` calls, threading the state and concatenating
the issued mutations. -/
def runUpdates (icons : Icons) (t : TrayState) :
    List Status → TrayState × List Mutation
  | [] => (t, [])
  | s :: rest =>
    let r := Update icons t s
    let r2 := runUpdates icons r.1 rest
    (r2.1, r.2 ++ r2.2)

/-- The `Start` method: it re-makes both diff caches as empty maps (the
prior state of the receiver is overwritten, never consulted), then the
systray `onReady` callback pushes the active template icon, creates the
menu items, sets `trayReady`, and performs the initial paint by calling
`update` with the given status.  Menu-item creation
(`AddMenuItem` / `AddMenuItemCheckbox`) is creation, not mutation, and is
not recorded in the mutation list. -/
def Start (icons : Icons) (_prior : TrayState) (status : IPNStatus) :
    TrayState × List Mutation :=
  let fresh : TrayState :=
    { trayReady := true, prev := fun _ => none, prevBytes := fun _ => none }
  let res := update icons fresh status
  (res.1, Mutation.setTemplateIcon icons.statusIconActiveData :: res.2)

/-- The `Close` method: it invokes the stored systray `appClose`
function; the external systray loop then runs the `onExit` callback
registered in `Start`, which clears `trayReady` and calls the internal
`close`, which discards the `prev` cache (`t.prev = nil`).  `prevBytes`
is not cleared by `close`; both caches are re-made on the next `Start`. -/
def Close (t : TrayState) : TrayState :=
  { t with trayReady := false, prev := fun _ => none }

/-- Host callbacks carried by the `Callbacks` structure. -/
inductive Callback where
  | onShow
  | onConnToggle
  | onExitToggle
  | onSelfNode
  | onQuit
deriving DecidableEq, Repr

/-- The listener wiring installed by the darwin package `Start`: each
goroutine ranges over one item click stream and invokes one callback.
An entry `(item, cb)` means a listener drains `item.ClickedCh` and calls
`cb` for each event. -/
def trayListeners : List (Item × Callback) :=
  [(Item.showItem, Callback.onShow),
   (Item.connToggle, Callback.onConnToggle),
   (Item.exitToggle, Callback.onExitToggle),
   (Item.selfNode, Callback.onSelfNode),
   (Item.quitItem, Callback.onQuit)]

/-- The listener wiring installed by the legacy `tray_macos` package
`Start`: the goroutine created for the exit toggle ranges over
`t.connToggleItem.ClickedCh`, not over the exit toggle item it was
created for. -/
def trayMacosListeners : List (Item × Callback) :=
  [(Item.showItem, Callback.onShow),
   (Item.connToggle, Callback.onConnToggle),
   (Item.connToggle, Callback.onExitToggle),
   (Item.selfNode, Callback.onSelfNode),
   (Item.quitItem, Callback.onQuit)]

/-- The callbacks that can be invoked when a given item is clicked: the
callbacks of every listener draining that item's click stream. -/
def clickHandlers (listeners : List (Item × Callback)) (item : Item) :
    List Callback :=
  (listeners.filter (fun l => l.1 = item)).map (fun l => l.2)

/-! Helper lemmas about the diff cache. -/

/-- A clean key: when the stored tuple (missing treated as empty) equals
the new tuple, `dirty` reports false and leaves the cache untouched. -/
theorem dirty_of_eq {m : DiffMap} {key : Key} {vals : List Val}
    (h : (m key).getD [] = vals) : dirty m key vals = (false, m) := by
  simp [dirty, h]

/-- A dirty key: when the stored tuple differs from the new tuple,
`dirty` reports true and records the new tuple. -/
theorem dirty_of_ne {m : DiffMap} {key : Key} {vals : List Val}
    (h : (m key).getD [] ≠ vals) : dirty m key vals = (true, setKey m key vals) := by
  simp [dirty, Ne.symm h]

/-- After a `dirty` call the cache holds the queried tuple at the queried
key, whatever the verdict was. -/
theorem dirty_getD_self (m : DiffMap) (key : Key) (vals : List Val) :
    (((dirty m key vals).2) key).getD [] = vals := by
  by_cases h : (m key).getD [] = vals
  · rw [dirty_of_eq h]
    exact h
  · rw [dirty_of_ne h]
    simp [setKey]

/-- A `dirty` call does not touch entries of other keys. -/
theorem dirty_snd_other {k : Key} {key : Key} (hk : k ≠ key)
    (m : DiffMap) (vals : List Val) : ((dirty m key vals).2) k = m k := by
  by_cases h : (m key).getD [] = vals
  · rw [dirty_of_eq h]
  · rw [dirty_of_ne h]
    simp [setKey, hk]

/-- The `dirty` verdict depends only on the stored tuple at the queried
key. -/
theorem dirty_fst_congr {m1 m2 : DiffMap} {key : Key} {vals : List Val}
    (h : (m1 key).getD [] = (m2 key).getD []) :
    (dirty m1 key vals).1 = (dirty m2 key vals).1 := by
  by_cases hc : (m2 key).getD [] = vals
  · rw [dirty_of_eq (h.trans hc), dirty_of_eq hc]
  · rw [dirty_of_ne (fun hcc => hc (h.symm.trans hcc)), dirty_of_ne hc]

/-- Zipping a byte-buffer list with itself exhibits no positional
mismatch. -/
theorem zip_self_no_mismatch (l : List Bytes) :
    ((l.zip l).any fun pv => pv.1 ≠ pv.2) = false := by
  induction l with
  | nil => rfl
  | cons a as ih =>
    rw [List.zip_cons_cons, List.any_cons, ih]
    simp

/-- Two same-length byte-buffer lists that are unequal exhibit a
positional mismatch under zipping. -/
theorem zip_mismatch_of_ne : ∀ (as bs : List Bytes), as.length = bs.length →
    as ≠ bs → ((as.zip bs).any fun pv => pv.1 ≠ pv.2) = true := by
  intro as
  induction as with
  | nil =>
    intro bs hlen hne
    cases bs with
    | nil => exact absurd rfl hne
    | cons b bs => simp at hlen
  | cons a as ih =>
    intro bs hlen hne
    cases bs with
    | nil => simp at hlen
    | cons b bs =>
      by_cases hab : a = b
      · subst hab
        have htl : as ≠ bs := by
          intro hcontra
          exact hne (by rw [hcontra])
        simp only [List.zip_cons_cons, List.any_cons]
        rw [ih bs (by simpa using hlen) htl]
        simp
      · simp [hab]

/-- A clean byte key: when the stored buffer tuple equals the new one,
`dirtyBytes` reports false and leaves the cache untouched. -/
theorem dirtyBytes_of_eq {m : BytesMap} {key : Key} {vals : List Bytes}
    (h : (m key).getD [] = vals) : dirtyBytes m key vals = (false, m) := by
  simp only [dirtyBytes, h]
  rw [if_neg (fun hc => hc rfl),
    if_neg (by rw [zip_self_no_mismatch vals]; exact Bool.false_ne_true)]

/-- A dirty byte key: when the stored buffer tuple differs from the new
one, `dirtyBytes` reports true and records the new tuple. -/
theorem dirtyBytes_of_ne {m : BytesMap} {key : Key} {vals : List Bytes}
    (h : (m key).getD [] ≠ vals) :
    dirtyBytes m key vals = (true, setBytesKey m key vals) := by
  by_cases hlen : ((m key).getD []).length = vals.length
  · have hmm := zip_mismatch_of_ne _ _ hlen h
    simp only [dirtyBytes]
    rw [if_neg (fun hcc => hcc hlen), if_pos hmm]
  · simp only [dirtyBytes]
    rw [if_pos hlen]

/-- After a `dirtyBytes` call the cache holds the queried buffer tuple at
the queried key. -/
theorem dirtyBytes_getD_self (m : BytesMap) (key : Key) (vals : List Bytes) :
    (((dirtyBytes m key vals).2) key).getD [] = vals := by
  by_cases h : (m key).getD [] = vals
  · rw [dirtyBytes_of_eq h]
    exact h
  · rw [dirtyBytes_of_ne h]
    simp [setBytesKey]

/-! Characterization of a single repaint. -/

/-- The scalar tuple the self-item step passes to `dirty`. -/
def selfTuple (status : IPNStatus) : List Val :=
  [Val.str (selfTitle status).1, Val.bool (selfTitle status).2]

/-- The scalar tuple the connect-toggle step passes to `dirty`. -/
def connTuple (status : IPNStatus) : List Val :=
  [Val.str (connToggleText status.online), Val.bool status.online]

/-- The scalar tuple the exit-toggle step passes to `dirty`. -/
def exitTuple (status : IPNStatus) : List Val :=
  [Val.str (exitToggleText status), Val.bool (selfTitle status).2,
   Val.bool status.exitNodeActive]

/-- The buffer tuple the icon step passes to `dirtyBytes`. -/
def iconTuple (icons : Icons) (status : IPNStatus) : List Bytes :=
  [statusIcon icons status]

/-- An `update` on a tray that is not ready is a silent no-op. -/
theorem update_not_ready {icons : Icons} {t : TrayState} {status : IPNStatus}
    (h : t.trayReady = false) : update icons t status = (t, []) := by
  simp [update, h]

/-- Unfolding of `update` on a ready tray: the four per-element steps in
issue order, each guarded by its own diff-cache verdict. -/
theorem update_of_ready {icons : Icons} {t : TrayState} {status : IPNStatus}
    (h : t.trayReady = true) :
    update icons t status =
      ({ trayReady := t.trayReady,
         prev := (dirty ((dirty ((dirty t.prev selfHandle (selfTuple status)).2)
             connToggleHandle (connTuple status)).2) exitToggleHandle
             (exitTuple status)).2,
         prevBytes := (dirtyBytes t.prevBytes statusIconHandle
             (iconTuple icons status)).2 },
       (if (dirtyBytes t.prevBytes statusIconHandle (iconTuple icons status)).1 then
           [Mutation.setTemplateIcon (statusIcon icons status)]
         else [])
       ++ (if (dirty t.prev selfHandle (selfTuple status)).1 then
           [Mutation.setTitle Item.selfNode ("This machine: " ++ (selfTitle status).1),
            Mutation.setEnabled Item.selfNode (selfTitle status).2]
         else [])
       ++ (if (dirty ((dirty t.prev selfHandle (selfTuple status)).2)
             connToggleHandle (connTuple status)).1 then
           [Mutation.setTitle Item.connToggle (connToggleText status.online),
            Mutation.setChecked Item.connToggle status.online]
         else [])
       ++ (if (dirty ((dirty ((dirty t.prev selfHandle (selfTuple status)).2)
             connToggleHandle (connTuple status)).2) exitToggleHandle
             (exitTuple status)).1 then
           [Mutation.setTitle Item.exitToggle (exitToggleText status),
            Mutation.setEnabled Item.exitToggle (selfTitle status).2,
            Mutation.setChecked Item.exitToggle status.exitNodeActive]
         else [])) := by
  simp only [update, h, Bool.not_true, Bool.false_eq_true, if_false]
  rfl

/-- The connect-toggle verdict inside `update` equals the verdict taken
directly over the pre-update cache: the self step only writes the self
key. -/
theorem conn_verdict_over_prev (m : DiffMap) (sv cv : List Val) :
    (dirty ((dirty m selfHandle sv).2) connToggleHandle cv).1 =
      (dirty m connToggleHandle cv).1 := by
  exact dirty_fst_congr (by rw [dirty_snd_other (by decide) m sv])

/-- The exit-toggle verdict inside `update` equals the verdict taken
directly over the pre-update cache: the self and connect steps only write
their own keys. -/
theorem exit_verdict_over_prev (m : DiffMap) (sv cv ev : List Val) :
    (dirty ((dirty ((dirty m selfHandle sv).2) connToggleHandle cv).2)
      exitToggleHandle (ev : List Val)).1 =
      (dirty m exitToggleHandle ev).1 := by
  refine dirty_fst_congr ?_
  rw [dirty_snd_other (by decide), dirty_snd_other (by decide)]

/-- `update` never changes the ready flag. -/
theorem update_trayReady (icons : Icons) (t : TrayState) (status : IPNStatus) :
    (update icons t status).1.trayReady = t.trayReady := by
  by_cases h : t.trayReady
  · rw [update_of_ready h]
  · rw [update_not_ready (by simpa using h)]

/-- After a ready `update`, the cache holds the current tuples of all
four elements. -/
theorem update_cache_painted {icons : Icons} {t : TrayState}
    {status : IPNStatus} (h : t.trayReady = true) :
    ((((update icons t status).1).prev selfHandle).getD [] = selfTuple status)
    ∧ ((((update icons t status).1).prev connToggleHandle).getD [] = connTuple status)
    ∧ ((((update icons t status).1).prev exitToggleHandle).getD [] = exitTuple status)
    ∧ ((((update icons t status).1).prevBytes statusIconHandle).getD []
        = iconTuple icons status) := by
  rw [update_of_ready h]
  refine ⟨?_, ?_, ?_, ?_⟩
  · dsimp only
    rw [dirty_snd_other (show selfHandle ≠ exitToggleHandle from by decide),
      dirty_snd_other (show selfHandle ≠ connToggleHandle from by decide),
      dirty_getD_self]
  · dsimp only
    rw [dirty_snd_other (show connToggleHandle ≠ exitToggleHandle from by decide),
      dirty_getD_self]
  · dsimp only
    rw [dirty_getD_self]
  · dsimp only
    rw [dirtyBytes_getD_self]

/-! Concrete sample inputs used by counterexamples and witnesses. -/

/-- Sample icon payloads, pairwise distinct like the three embedded PNG
assets. -/
def sampleIcons : Icons :=
  { statusIconActiveData := [1], statusIconInactiveData := [0],
    statusIconExitNodeData := [2] }

/-- A ready tray with both diff caches empty, as produced inside `Start`
after the caches are re-made and `onReady` has run. -/
def freshState : TrayState :=
  { trayReady := true, prev := fun _ => none, prevBytes := fun _ => none }

/-- A disconnected status: offline, no exit node, invalid self address. -/
def statusOffline : IPNStatus :=
  { online := false, exitNodeActive := false, selfAddrValid := false,
    selfAddr := "", displayName := "" }

/-- The disconnected status with only `exitNodeActive` flipped. -/
def statusOfflineExit : IPNStatus :=
  { statusOffline with exitNodeActive := true }

/-- A connected status with a valid self address. -/
def statusHost : IPNStatus :=
  { online := true, exitNodeActive := false, selfAddrValid := true,
    selfAddr := "100.1.2.3", displayName := "host" }

/-- A `Start` paints everything: the `onReady` template icon push, then
the initial `update` finds every key absent from the freshly re-made
caches, so all four element steps fire. -/
theorem start_muts (icons : Icons) (prior : TrayState) (status : IPNStatus) :
    (Start icons prior status).2 =
      [Mutation.setTemplateIcon icons.statusIconActiveData,
       Mutation.setTemplateIcon (statusIcon icons status),
       Mutation.setTitle Item.selfNode ("This machine: " ++ (selfTitle status).1),
       Mutation.setEnabled Item.selfNode (selfTitle status).2,
       Mutation.setTitle Item.connToggle (connToggleText status.online),
       Mutation.setChecked Item.connToggle status.online,
       Mutation.setTitle Item.exitToggle (exitToggleText status),
       Mutation.setEnabled Item.exitToggle (selfTitle status).2,
       Mutation.setChecked Item.exitToggle status.exitNodeActive] := by
  simp [Start, update, dirty, dirtyBytes, setKey, setBytesKey, selfHandle,
    connToggleHandle, exitToggleHandle, statusIconHandle]

/-! Claim theorems. -/

/-- C1: repaint is idempotent — calling the internal `update` twice in a
row with the identical snapshot issues zero native mutations (no
SetTitle, SetTemplateIcon, Enable/Disable, Check/Uncheck) on the second
call, from any starting state. -/
theorem second_repaint_silent (icons : Icons) (t : TrayState)
    (status : IPNStatus) :
    (update icons ((update icons t status).1) status).2 = [] := by
  by_cases h : t.trayReady = true
  · have h1 : (update icons t status).1.trayReady = true := by
      rw [update_trayReady]
      exact h
    have hc := @update_cache_painted icons t status h
    rw [update_of_ready h1]
    dsimp only
    rw [dirty_of_eq hc.1]
    dsimp only
    rw [dirty_of_eq hc.2.1]
    dsimp only
    rw [dirty_of_eq hc.2.2.1, dirtyBytes_of_eq hc.2.2.2]
    simp
  · have hf : t.trayReady = false := by simpa using h
    rw [update_not_ready hf]
    dsimp only
    rw [update_not_ready hf]

/-- C4: post-close silence — after `Close`, every subsequent `Update`
call is a silent no-op issuing zero native mutations and leaving the
state unchanged, whatever the snapshots are, until a new `Start`. -/
theorem post_close_updates_silent (icons : Icons) (t : TrayState)
    (statuses : List Status) :
    runUpdates icons (Close t) statuses = (Close t, []) := by
  induction statuses with
  | nil => rfl
  | cons s rest ih =>
    have hs : Update icons (Close t) s = (Close t, []) := by
      cases s with
      | ipn st => exact update_not_ready rfl
      | other => rfl
    simp [runUpdates, hs, ih]

/-- C9: guard of `Update` — when the tray is not ready, or the passed
status is not the concrete `*tsutil.IPNStatus` kind, the call no-ops: no
error is surfaced (the method returns nothing), no mutation is issued,
and the diff caches are untouched. -/
theorem update_guard_noop (icons : Icons) (t : TrayState) (s : Status)
    (h : t.trayReady = false ∨ s = Status.other) :
    Update icons t s = (t, []) := by
  cases s with
  | other => rfl
  | ipn st =>
    cases h with
    | inl hf => exact update_not_ready hf
    | inr habs => exact Status.noConfusion habs

/-- Witness for C9 at a closed tray and a well-typed snapshot. -/
theorem update_guard_noop_witness :
    Update sampleIcons (Close freshState) (Status.ipn statusOffline) =
      (Close freshState, []) :=
  update_guard_noop sampleIcons (Close freshState) (Status.ipn statusOffline)
    (Or.inl rfl)

/-- C8: restart resets dirtiness — in the sequence `Start`, `Update A`,
`Close`, `Start` the second `Start` re-makes both diff caches empty, so
its initial paint with `A` re-issues every element's mutation even
though `A` was already painted in the prior session. -/
theorem restart_full_repaint (icons : Icons) (prior : TrayState)
    (s0 a : IPNStatus) :
    (Start icons
        (Close ((Update icons ((Start icons prior s0).1) (Status.ipn a)).1))
        a).2 =
      [Mutation.setTemplateIcon icons.statusIconActiveData,
       Mutation.setTemplateIcon (statusIcon icons a),
       Mutation.setTitle Item.selfNode ("This machine: " ++ (selfTitle a).1),
       Mutation.setEnabled Item.selfNode (selfTitle a).2,
       Mutation.setTitle Item.connToggle (connToggleText a.online),
       Mutation.setChecked Item.connToggle a.online,
       Mutation.setTitle Item.exitToggle (exitToggleText a),
       Mutation.setEnabled Item.exitToggle (selfTitle a).2,
       Mutation.setChecked Item.exitToggle a.exitNodeActive] :=
  start_muts icons
    (Close ((Update icons ((Start icons prior s0).1) (Status.ipn a)).1)) a

/-- C10: in the legacy `tray_macos` variant the listener created for the
exit toggle drains the connect toggle's click stream, so a click on the
exit toggle invokes no callback at all while a click on the connect
toggle can invoke `OnExitToggle`; the darwin variant binds every
listener to its own item's stream and the exit toggle click invokes
exactly `OnExitToggle`. -/
theorem exit_toggle_listener_mismatch :
    clickHandlers trayMacosListeners Item.exitToggle = []
    ∧ Callback.onExitToggle ∈ clickHandlers trayMacosListeners Item.connToggle
    ∧ clickHandlers trayListeners Item.exitToggle = [Callback.onExitToggle]
    ∧ clickHandlers trayListeners Item.connToggle = [Callback.onConnToggle] := by
  decide

/-- C2 counterexample: for a key with no entry, `dirty` queried with the
empty tuple reports clean, contradicting the claim that a missing entry
is always dirty. -/
theorem dirty_missing_key_empty_tuple_clean :
    ((fun _ => none : DiffMap) selfHandle = none)
    ∧ (dirty (fun _ => none) selfHandle []).1 = false :=
  ⟨rfl, rfl⟩

/-- C2 amended: the diff-cache contract of `dirty` and `dirtyBytes` — a
key is dirty iff the new tuple differs from the stored one, where a
missing entry compares as the empty tuple; on a dirty verdict the stored
tuple is replaced, on a clean verdict the store is untouched; hence for a
key with no entry every nonempty tuple is dirty (while the empty tuple
is reported clean). -/
theorem dirty_store_contract (m : DiffMap) (bm : BytesMap) (key : Key)
    (vals : List Val) (bvals : List Bytes) :
    ((dirty m key vals).1 = true ↔ vals ≠ (m key).getD [])
    ∧ ((dirty m key vals).1 = true → (dirty m key vals).2 = setKey m key vals)
    ∧ ((dirty m key vals).1 = false → (dirty m key vals).2 = m)
    ∧ (m key = none → vals ≠ [] → (dirty m key vals).1 = true)
    ∧ ((dirtyBytes bm key bvals).1 = true ↔ bvals ≠ (bm key).getD [])
    ∧ ((dirtyBytes bm key bvals).1 = true →
        (dirtyBytes bm key bvals).2 = setBytesKey bm key bvals)
    ∧ ((dirtyBytes bm key bvals).1 = false → (dirtyBytes bm key bvals).2 = bm)
    ∧ (bm key = none → bvals ≠ [] → (dirtyBytes bm key bvals).1 = true) := by
  refine ⟨?_, ?_, ?_, ?_, ?_, ?_, ?_, ?_⟩
  · by_cases h : (m key).getD [] = vals
    · rw [dirty_of_eq h]
      simp [h]
    · rw [dirty_of_ne h]
      simp [Ne.symm h]
  · by_cases h : (m key).getD [] = vals
    · rw [dirty_of_eq h]
      intro hc
      exact absurd hc (by simp)
    · rw [dirty_of_ne h]
      intro _
      rfl
  · by_cases h : (m key).getD [] = vals
    · rw [dirty_of_eq h]
      intro _
      rfl
    · rw [dirty_of_ne h]
      intro hc
      exact absurd hc (by simp)
  · intro hn hne
    rw [dirty_of_ne (by rw [hn]; exact Ne.symm hne)]
  · by_cases h : (bm key).getD [] = bvals
    · rw [dirtyBytes_of_eq h]
      simp [h]
    · rw [dirtyBytes_of_ne h]
      simp [Ne.symm h]
  · by_cases h : (bm key).getD [] = bvals
    · rw [dirtyBytes_of_eq h]
      intro hc
      exact absurd hc (by simp)
    · rw [dirtyBytes_of_ne h]
      intro _
      rfl
  · by_cases h : (bm key).getD [] = bvals
    · rw [dirtyBytes_of_eq h]
      intro _
      rfl
    · rw [dirtyBytes_of_ne h]
      intro hc
      exact absurd hc (by simp)
  · intro hn hne
    rw [dirtyBytes_of_ne (by rw [hn]; exact Ne.symm hne)]

/-- Witness for C2's amended contract: a missing entry is dirty for a
nonempty tuple. -/
theorem dirty_store_contract_witness :
    (dirty (fun _ => none) selfHandle [Val.bool true]).1 = true :=
  (dirty_store_contract (fun _ => none) (fun _ => none) selfHandle
    [Val.bool true] []).2.2.2.1 rfl (by decide)

/-- Distributing a filter over a conditional mutation batch. -/
theorem filter_ite (p : Mutation → Bool) (c : Prop) [Decidable c]
    (l : List Mutation) :
    List.filter p (if c then l else []) = if c then List.filter p l else [] := by
  split <;> rfl

/-- C5: during a ready repaint, the connect-toggle step consults the diff
cache with the tuple `[connectLabel, online]`, and exactly when that
tuple is dirty it sets the connect toggle's title to `connectLabel` and
its checked state to `online`; the connect toggle receives no other
mutation. -/
theorem conn_toggle_title_and_checked (icons : Icons) (t : TrayState)
    (status : IPNStatus) (h : t.trayReady = true) :
    itemMutations ((update icons t status).2) Item.connToggle =
      (if (dirty t.prev connToggleHandle (connTuple status)).1 then
        [Mutation.setTitle Item.connToggle (connToggleText status.online),
         Mutation.setChecked Item.connToggle status.online]
      else []) := by
  rw [update_of_ready h]
  dsimp only
  rw [conn_verdict_over_prev]
  simp [itemMutations, mutationItem, filter_ite]

/-- Witness for C5 at a ready fresh tray and a connected snapshot. -/
theorem conn_toggle_title_and_checked_witness :
    itemMutations ((update sampleIcons freshState statusHost).2)
        Item.connToggle =
      [Mutation.setTitle Item.connToggle "Disconnect",
       Mutation.setChecked Item.connToggle true] := by
  rw [conn_toggle_title_and_checked sampleIcons freshState statusHost rfl]
  decide

/-- C6: three-way priority of the icon selection — offline selects the
inactive icon whatever the exit-node state is; online with an active
exit node selects the exit-node icon; online otherwise selects the
active icon. -/
theorem status_icon_three_way_priority (icons : Icons) (status : IPNStatus) :
    (status.online = false →
      statusIcon icons status = icons.statusIconInactiveData)
    ∧ (status.online = true → status.exitNodeActive = true →
        statusIcon icons status = icons.statusIconExitNodeData)
    ∧ (status.online = true → status.exitNodeActive = false →
        statusIcon icons status = icons.statusIconActiveData) := by
  refine ⟨fun h => by simp [statusIcon, h],
    fun h he => by simp [statusIcon, h, he],
    fun h he => by simp [statusIcon, h, he]⟩

/-- Witness for C6: inactivity wins over an active exit node. -/
theorem status_icon_three_way_priority_witness :
    statusIcon sampleIcons statusOfflineExit =
      sampleIcons.statusIconInactiveData :=
  (status_icon_three_way_priority sampleIcons statusOfflineExit).1 rfl

/-- C7: self label derivation — with an invalid self address the label
is "Not connected", the connected flag is false, and the initial paint
disables the self item; with a valid address the label is
"displayName (address)", the connected flag is true, and the initial
paint enables the self item; the title applied is "This machine: "
followed by the label. -/
theorem self_label_derivation (icons : Icons) (prior : TrayState)
    (status : IPNStatus) :
    (status.selfAddrValid = false →
      selfTitle status = ("Not connected", false)
      ∧ itemMutations ((Start icons prior status).2) Item.selfNode =
          [Mutation.setTitle Item.selfNode ("This machine: " ++ "Not connected"),
           Mutation.setEnabled Item.selfNode false])
    ∧ (status.selfAddrValid = true →
      selfTitle status =
          (status.displayName ++ " (" ++ status.selfAddr ++ ")", true)
      ∧ itemMutations ((Start icons prior status).2) Item.selfNode =
          [Mutation.setTitle Item.selfNode
             ("This machine: "
               ++ (status.displayName ++ " (" ++ status.selfAddr ++ ")")),
           Mutation.setEnabled Item.selfNode true]) := by
  constructor
  · intro hv
    have hst : selfTitle status = ("Not connected", false) := by
      simp [selfTitle, hv]
    refine ⟨hst, ?_⟩
    rw [start_muts]
    simp [itemMutations, mutationItem, hst]
  · intro hv
    have hst : selfTitle status =
        (status.displayName ++ " (" ++ status.selfAddr ++ ")", true) := by
      simp [selfTitle, hv]
    refine ⟨hst, ?_⟩
    rw [start_muts]
    simp [itemMutations, mutationItem, hst]

/-- Witness for C7 at a valid self address. -/
theorem self_label_derivation_witness :
    selfTitle statusHost = ("host (100.1.2.3)", true)
    ∧ itemMutations ((Start sampleIcons freshState statusHost).2)
        Item.selfNode =
      [Mutation.setTitle Item.selfNode "This machine: host (100.1.2.3)",
       Mutation.setEnabled Item.selfNode true] := by
  have h := (self_label_derivation sampleIcons freshState statusHost).2 rfl
  refine ⟨?_, ?_⟩
  · rw [h.1]
    decide
  · rw [h.2]
    decide

/-- C3 counterexample: paint the offline snapshot, then flip only
`exitNodeActive`; the second repaint issues no icon mutation at all
(both snapshots select the inactive icon) and does issue an
enabled-state call on the exit toggle, contradicting the claim that
exactly the exit-toggle title, checked state and the icon are mutated. -/
theorem selective_repaint_counterexample :
    ((update sampleIcons ((update sampleIcons freshState statusOffline).1)
        statusOfflineExit).2
      = [Mutation.setTitle Item.exitToggle "Disable exit node",
         Mutation.setEnabled Item.exitToggle false,
         Mutation.setChecked Item.exitToggle true])
    ∧ ((update sampleIcons ((update sampleIcons freshState statusOffline).1)
        statusOfflineExit).2.any isIconMutation = false)
    ∧ (Mutation.setEnabled Item.exitToggle false
        ∈ (update sampleIcons ((update sampleIcons freshState statusOffline).1)
            statusOfflineExit).2) := by
  decide

/-- C3 amended: after painting snapshot A from a ready state, repainting
with B that differs from A only in `exitNodeActive` issues exactly the
exit-toggle step's three calls (title, enabled state, checked state),
preceded by the icon mutation iff A is online (the icon depends on
`exitNodeActive` only while online); the self item and the connect
toggle receive no mutation. -/
theorem selective_repaint_amended (icons : Icons) (t : TrayState)
    (status : IPNStatus) (b : Bool)
    (hready : t.trayReady = true) (hflip : b ≠ status.exitNodeActive)
    (hicons : icons.statusIconActiveData ≠ icons.statusIconExitNodeData) :
    (update icons ((update icons t status).1)
        { status with exitNodeActive := b }).2
      = (if status.online then
           [Mutation.setTemplateIcon
              (statusIcon icons { status with exitNodeActive := b })]
         else [])
        ++ [Mutation.setTitle Item.exitToggle
              (exitToggleText { status with exitNodeActive := b }),
            Mutation.setEnabled Item.exitToggle (selfTitle status).2,
            Mutation.setChecked Item.exitToggle b] := by
  have h1 : (update icons t status).1.trayReady = true := by
    rw [update_trayReady]
    exact hready
  have hc := @update_cache_painted icons t status hready
  have hself : selfTuple { status with exitNodeActive := b } = selfTuple status := rfl
  have hconn : connTuple { status with exitNodeActive := b } = connTuple status := rfl
  have hse : (selfTitle { status with exitNodeActive := b }).2
      = (selfTitle status).2 := rfl
  have hexit : exitTuple status ≠ exitTuple { status with exitNodeActive := b } := by
    simp only [exitTuple]
    intro hcontra
    simp only [List.cons.injEq, Val.str.injEq, Val.bool.injEq, and_true] at hcontra
    exact hflip hcontra.2.2.symm
  rw [update_of_ready h1]
  dsimp only
  rw [hself, hconn]
  rw [dirty_of_eq hc.1]
  dsimp only
  rw [dirty_of_eq hc.2.1]
  dsimp only
  rw [dirty_of_ne (by rw [hc.2.2.1]; exact hexit)]
  dsimp only
  by_cases ho : status.online = true
  · have hb : b = !status.exitNodeActive := by
      cases b <;> cases hsa : status.exitNodeActive <;> simp_all
    have hicon : iconTuple icons status
        ≠ iconTuple icons { status with exitNodeActive := b } := by
      subst hb
      cases hsa : status.exitNodeActive <;>
        simp [iconTuple, statusIcon, ho, hsa, hicons, Ne.symm hicons]
    rw [dirtyBytes_of_ne (by rw [hc.2.2.2]; exact hicon)]
    dsimp only
    rw [if_pos ho]
    simp [hse]
  · have ho2 : status.online = false := by simpa using ho
    have hicon : iconTuple icons { status with exitNodeActive := b }
        = iconTuple icons status := by
      simp [iconTuple, statusIcon, ho2]
    rw [hicon, dirtyBytes_of_eq hc.2.2.2]
    dsimp only
    simp [hse, ho2]
    rfl

/-- Witness for C3's amended statement: flipping the exit node on while
online repaints the icon and the exit toggle only. -/
theorem selective_repaint_amended_witness :
    (update sampleIcons ((update sampleIcons freshState statusHost).1)
        { statusHost with exitNodeActive := true }).2
      = [Mutation.setTemplateIcon sampleIcons.statusIconExitNodeData,
         Mutation.setTitle Item.exitToggle "Disable exit node",
         Mutation.setEnabled Item.exitToggle true,
         Mutation.setChecked Item.exitToggle true] := by
  rw [selective_repaint_amended sampleIcons freshState statusHost true rfl
    (by decide) (by decide)]
  decide
